import Mathlib

/-!
Shallow embedding of the order-intake bot in `app/bot.py` / `app/config.py`
(repository Zikrig/layout).  Python dictionaries that always carry the full
key set (see `build_empty_order`) are embedded as Lean structures whose
optional values are `Option`-typed; Python truthiness of a string value is
the predicate `truthy`; Python `str or default` is `py_or` / `py_or_s`.
Transport I/O (sending/editing chat messages, SMTP) is embedded as data:
a rendered view is a `View`, outgoing sends of `finalize_order` are a list
of `SendEffect`, and the SMTP outcome is an oracle
`send : String -> Option String` (`none` = success, `some e` = the caught
exception text).
-/

namespace Bot

/-- Python truthiness of an optional string: `None` and `""` are falsy. -/
def truthy : Option String → Bool
  | none => false
  | some s => s != ""

/-- Python `a or b` on two optional strings (used for `manager.name or manager.email`). -/
def py_or (a b : Option String) : Option String :=
  if truthy a then a else b

/-- Python `a or "dflt"` on an optional string against a constant default. -/
def py_or_s (a : Option String) (dflt : String) : String :=
  if truthy a then a.getD "" else dflt

/-- Python `f"{v}"` on an optional string: `None` prints as `"None"`. -/
def py_str : Option String → String
  | none => "None"
  | some s => s

/-- Python `str.lower`, modelled for the ASCII and Cyrillic letters this
program compares (`bot.py` line 1934 lowercases the typed comment text). -/
def py_char_lower (c : Char) : Char :=
  if 'A' ≤ c ∧ c ≤ 'Z' then Char.ofNat (c.toNat + 32)
  else if 'А' ≤ c ∧ c ≤ 'Я' then Char.ofNat (c.toNat + 32)
  else if c = 'Ё' then 'ё'
  else c

/-- Python `str.lower` (restricted to the alphabets used by the bot). -/
def py_lower (s : String) : String := ⟨s.data.map py_char_lower⟩

/-- ASCII whitespace stripped by Python `str.strip()`. -/
def is_py_space (c : Char) : Bool :=
  c = ' ' || c = '\t' || c = '\n' || c = '\r' || c = '\x0b' || c = '\x0c'

/-- Python `str.strip()`. -/
def py_strip (s : String) : String :=
  ⟨((s.data.dropWhile is_py_space).reverse.dropWhile is_py_space).reverse⟩

/-- `safe_value` from bot.py (lines 371-379) applied to an optional string. -/
def safe_value_s (v : Option String) : String :=
  match v with
  | none => "-"
  | some s => let t := py_strip s; if t = "" then "-" else t

/-- `safe_value` from bot.py applied to an optional boolean. -/
def safe_value_b (v : Option Bool) : String :=
  match v with
  | none => "-"
  | some true => "Да"
  | some false => "Нет"

/-! ### The order document (`build_empty_order`, bot.py lines 693-752) -/

structure SizeCm where
  width : Option String
  height : Option String
deriving Repr, DecidableEq

structure Freski where
  enabled : Bool
  catalog_name : Option String
  article : Option String
  size_cm : SizeCm
  material : Option String
  color_sample : Option String
  hydro_insulation : Option String
  crackle_aging : Option String
deriving Repr, DecidableEq

structure ColorSampleReq where
  required : Option Bool
  agreed_without_sample : Option Bool
deriving Repr, DecidableEq

structure Designer where
  enabled : Bool
  catalog_name : Option String
  article : Option String
  panel_size_cm : Option String
  panels_order_left_to_right : Option String
  production_type : Option String
  color_sample : ColorSampleReq
  mirror : Option String
deriving Repr, DecidableEq

structure Background where
  enabled : Bool
  catalog_name : Option String
  article : Option String
  material_type : Option String
  size_cm : SizeCm
  color_sample : ColorSampleReq
deriving Repr, DecidableEq

structure Paintings where
  enabled : Bool
  article : Option String
  canvas_total_size_cm : SizeCm
  visible_image_size_cm : SizeCm
deriving Repr, DecidableEq

structure Delivery where
  needed : Option String
  type : Option String
  address : Option String
  carrier : Option String
  crate : Option String
deriving Repr, DecidableEq

structure PhotoRef where
  file_id : String
  size : Nat
deriving Repr, DecidableEq

structure DocRef where
  file_id : String
  size : Nat
  file_name : Option String
deriving Repr, DecidableEq

structure CommentData where
  text : Option String
  photos : List PhotoRef
  documents : List DocRef
  total_size : Nat
deriving Repr, DecidableEq

structure Client where
  telegram : String
  legal_entity : Option String
  city : Option String
  phone : Option String
  email : Option String
  region : Option String
  manager_email : Option String
  manager_name : Option String
deriving Repr, DecidableEq

structure Order where
  client : Client
  freski : Freski
  designer_wallpapers : Designer
  background_wallpapers : Background
  paintings : Paintings
  delivery : Delivery
  comment : CommentData
deriving Repr, DecidableEq

/-- `build_empty_order` (bot.py lines 693-752). -/
def build_empty_order (telegram : String) : Order :=
  { client := { telegram := telegram, legal_entity := none, city := none,
                phone := none, email := none, region := none,
                manager_email := none, manager_name := none },
    freski := { enabled := false, catalog_name := none, article := none,
                size_cm := { width := none, height := none }, material := none,
                color_sample := none, hydro_insulation := none, crackle_aging := none },
    designer_wallpapers := { enabled := false, catalog_name := none, article := none,
                             panel_size_cm := none, panels_order_left_to_right := none,
                             production_type := none,
                             color_sample := { required := none, agreed_without_sample := none },
                             mirror := none },
    background_wallpapers := { enabled := false, catalog_name := none, article := none,
                               material_type := none,
                               size_cm := { width := none, height := none },
                               color_sample := { required := none, agreed_without_sample := none } },
    paintings := { enabled := false, article := none,
                   canvas_total_size_cm := { width := none, height := none },
                   visible_image_size_cm := { width := none, height := none } },
    delivery := { needed := none, type := none, address := none,
                  carrier := none, crate := none },
    comment := { text := none, photos := [], documents := [], total_size := 0 } }

/-! ### `ManagerInfo` (bot.py lines 87-91) and configured lists (config.py) -/

structure ManagerInfo where
  name : Option String
  email : Option String
  chat_id : Option Int
deriving Repr, DecidableEq

/-- `freski_materials` from `load_config` (config.py lines 90-104). -/
def freski_materials : List String :=
  ["Велюр", "Сатин", "Саванна", "Безе", "Велатура", "Саббия", "Саббия Фасад",
   "Пиетра", "Кракелюр", "Фабриз X", "Фабриз Y", "Колоре", "Колоре Лайт"]

/-- `freski_catalogs` from `load_config` (config.py lines 56-59). -/
def freski_catalogs : List String :=
  ["Библиотека Affresco", "Индивидуальная отрисовка"]

/-! ### The user-facing summary `format_user_summary` (bot.py lines 382-525).
The Python code appends to a single `lines` list section by section; the
embedding builds the same list as a concatenation of the per-section blocks,
in the same order, with the same guards. -/

def client_user_lines (c : Client) : List String :=
  let ls :=
    (if truthy c.legal_entity then ["Юрлицо: " ++ c.legal_entity.getD ""] else [])
    ++ (if truthy c.city then ["Город: " ++ c.city.getD ""] else [])
    ++ (if truthy c.phone then ["Телефон: " ++ c.phone.getD ""] else [])
    ++ (if truthy c.email then ["Email: " ++ c.email.getD ""] else [])
    ++ (if truthy c.region then ["Регион доставки: " ++ c.region.getD ""] else [])
    ++ (if truthy c.manager_name then ["Менеджер: " ++ c.manager_name.getD ""] else [])
  ls ++ (if ls = [] then [] else [""])

def freski_user_lines (f : Freski) : List String :=
  if f.enabled then
    ["ФРЕСКИ"]
    ++ (if truthy f.catalog_name then ["Каталог: " ++ safe_value_s f.catalog_name] else [])
    ++ (if truthy f.article then ["Артикул: " ++ safe_value_s f.article] else [])
    ++ (if truthy f.size_cm.width then ["Ширина, см: " ++ safe_value_s f.size_cm.width] else [])
    ++ (if truthy f.size_cm.height then ["Высота, см: " ++ safe_value_s f.size_cm.height] else [])
    ++ (if truthy f.material then ["Материал: " ++ safe_value_s f.material] else [])
    ++ (if f.color_sample.isSome then ["Цветопроба: " ++ safe_value_s f.color_sample] else [])
    ++ (if f.hydro_insulation.isSome then ["Гидроизоляция: " ++ safe_value_s f.hydro_insulation] else [])
    ++ (if f.crackle_aging.isSome then ["Старение: " ++ safe_value_s f.crackle_aging] else [])
    ++ [""]
  else []

def designer_user_lines (d : Designer) : List String :=
  if d.enabled then
    ["ДИЗАЙНЕРСКИЕ ОБОИ"]
    ++ (if truthy d.catalog_name then ["Каталог: " ++ safe_value_s d.catalog_name] else [])
    ++ (if truthy d.article then ["Артикул: " ++ safe_value_s d.article] else [])
    ++ ["Материал: Велюр"]
    ++ (if truthy d.panel_size_cm then ["Размер панели: " ++ safe_value_s d.panel_size_cm] else [])
    ++ (if truthy d.panels_order_left_to_right then
          ["Порядок панелей: " ++ safe_value_s d.panels_order_left_to_right] else [])
    ++ (if truthy d.production_type then ["Тип производства: " ++ safe_value_s d.production_type] else [])
    ++ (if d.color_sample.required.isSome then
          ["Цветопроба нужна: " ++ safe_value_b d.color_sample.required] else [])
    ++ (if d.mirror.isSome then ["Отзеркалить: " ++ safe_value_s d.mirror] else [])
    ++ [""]
  else []

def background_user_lines (b : Background) : List String :=
  if b.enabled then
    ["ФОНОВЫЕ ОБОИ"]
    ++ (if truthy b.catalog_name then ["Каталог: " ++ safe_value_s b.catalog_name] else [])
    ++ (if truthy b.article then ["Артикул: " ++ safe_value_s b.article] else [])
    ++ (if truthy b.material_type then ["Материал: " ++ safe_value_s b.material_type] else [])
    ++ (if truthy b.size_cm.width then ["Ширина, см: " ++ safe_value_s b.size_cm.width] else [])
    ++ (if truthy b.size_cm.height then ["Высота, см: " ++ safe_value_s b.size_cm.height] else [])
    ++ (if b.color_sample.required.isSome then
          ["Цветопроба нужна: " ++ safe_value_b b.color_sample.required] else [])
    ++ [""]
  else []

def paintings_user_lines (p : Paintings) : List String :=
  if p.enabled then
    ["КАРТИНЫ ИЗ КАТАЛОГА ФРЕСКИ И ИНДИВИДУАЛЬНЫЕ ИЗОБРАЖЕНИЯ",
     "Материал: Итальянский холст",
     "Макс. размер, см: 450 x 140"]
    ++ (if truthy p.article then ["Артикул: " ++ safe_value_s p.article] else [])
    ++ (if truthy p.canvas_total_size_cm.width || truthy p.canvas_total_size_cm.height then
          ["Полный размер холста, см:"]
          ++ (if truthy p.canvas_total_size_cm.width then
                ["  Ширина: " ++ safe_value_s p.canvas_total_size_cm.width] else [])
          ++ (if truthy p.canvas_total_size_cm.height then
                ["  Высота: " ++ safe_value_s p.canvas_total_size_cm.height] else [])
        else [])
    ++ (if truthy p.visible_image_size_cm.width || truthy p.visible_image_size_cm.height then
          ["Видимый размер изображения, см:"]
          ++ (if truthy p.visible_image_size_cm.width then
                ["  Ширина: " ++ safe_value_s p.visible_image_size_cm.width] else [])
          ++ (if truthy p.visible_image_size_cm.height then
                ["  Высота: " ++ safe_value_s p.visible_image_size_cm.height] else [])
        else [])
    ++ [""]
  else []

def delivery_user_lines (d : Delivery) : List String :=
  if d.needed.isSome then
    ["ДОСТАВКА", "Нужна: " ++ safe_value_s d.needed, "Тип: " ++ safe_value_s d.type]
    ++ (if truthy d.address then ["Адрес: " ++ safe_value_s d.address] else [])
    ++ ["ТК/Самовывоз: " ++ safe_value_s d.carrier,
        "Обрешетка: " ++ safe_value_s d.crate, ""]
  else []

def comment_user_lines (c : CommentData) : List String :=
  if truthy c.text || !c.photos.isEmpty || !c.documents.isEmpty then
    ["КОММЕНТАРИИ"]
    ++ (if truthy c.text then ["Текст: " ++ safe_value_s c.text] else [])
    ++ (if 0 < c.photos.length then ["Фото: " ++ toString c.photos.length ++ " шт."] else [])
    ++ (if 0 < c.documents.length then ["Документы: " ++ toString c.documents.length ++ " шт."] else [])
    ++ [""]
  else []

/-- `format_user_summary` (bot.py lines 382-525): the customer-facing running
summary; product-category sections only when `enabled`, field lines only
under the code's truthiness / `is not None` guards. -/
def format_user_summary (o : Order) : String :=
  String.intercalate "\n"
    (client_user_lines o.client
     ++ freski_user_lines o.freski
     ++ designer_user_lines o.designer_wallpapers
     ++ background_user_lines o.background_wallpapers
     ++ paintings_user_lines o.paintings
     ++ delivery_user_lines o.delivery
     ++ comment_user_lines o.comment)

/-! ### The manager/admin summary `format_summary` (bot.py lines 528-662) -/

def freski_full_lines (f : Freski) : List String :=
  if f.enabled then
    ["ФРЕСКИ: Да",
     "Каталог: " ++ safe_value_s f.catalog_name,
     "Артикул: " ++ safe_value_s f.article,
     "Ширина, см: " ++ safe_value_s f.size_cm.width,
     "Высота, см: " ++ safe_value_s f.size_cm.height,
     "Материал: " ++ safe_value_s f.material,
     "Цветопроба: " ++ safe_value_s f.color_sample,
     "Гидроизоляция: " ++ safe_value_s f.hydro_insulation,
     "Старение: " ++ safe_value_s f.crackle_aging, ""]
  else ["ФРЕСКИ: Нет", ""]

def designer_full_lines (d : Designer) : List String :=
  if d.enabled then
    ["ДИЗАЙНЕРСКИЕ ОБОИ: Да",
     "Каталог: " ++ safe_value_s d.catalog_name,
     "Артикул: " ++ safe_value_s d.article,
     "Материал: Велюр",
     "Размер панели: " ++ safe_value_s d.panel_size_cm,
     "Порядок панелей: " ++ safe_value_s d.panels_order_left_to_right,
     "Тип производства: " ++ safe_value_s d.production_type,
     "Цветопроба нужна: " ++ safe_value_b d.color_sample.required,
     "Отзеркалить: " ++ safe_value_s d.mirror, ""]
  else ["ДИЗАЙНЕРСКИЕ ОБОИ: Нет", ""]

def background_full_lines (b : Background) : List String :=
  if b.enabled then
    ["ФОНОВЫЕ ОБОИ: Да",
     "Каталог: " ++ safe_value_s b.catalog_name,
     "Артикул: " ++ safe_value_s b.article,
     "Материал: " ++ safe_value_s b.material_type,
     "Ширина, см: " ++ safe_value_s b.size_cm.width,
     "Высота, см: " ++ safe_value_s b.size_cm.height,
     "Цветопроба нужна: " ++ safe_value_b b.color_sample.required, ""]
  else ["ФОНОВЫЕ ОБОИ: Нет", ""]

def paintings_full_lines (p : Paintings) : List String :=
  if p.enabled then
    ["КАРТИНЫ ИЗ КАТАЛОГА ФРЕСКИ И ИНДИВИДУАЛЬНЫЕ ИЗОБРАЖЕНИЯ: Да",
     "Материал: Итальянский холст",
     "Макс. размер, см: 450 x 140",
     "Артикул: " ++ safe_value_s p.article,
     "Полный размер холста, см:",
     "  Ширина: " ++ safe_value_s p.canvas_total_size_cm.width,
     "  Высота: " ++ safe_value_s p.canvas_total_size_cm.height,
     "Видимый размер изображения, см:",
     "  Ширина: " ++ safe_value_s p.visible_image_size_cm.width,
     "  Высота: " ++ safe_value_s p.visible_image_size_cm.height, ""]
  else []

/-- `format_summary` (bot.py lines 528-662): the full summary mailed to the
resolved managers; disabled categories render a `: Нет` header line. -/
def format_summary (o : Order) : String :=
  String.intercalate "\n"
    ((["Новая заявка",
       "Пользователь: " ++ o.client.telegram,
       "Юрлицо: " ++ py_str o.client.legal_entity,
       "Город: " ++ py_str o.client.city,
       "Телефон: " ++ py_str o.client.phone,
       "Email: " ++ py_str o.client.email,
       "Регион доставки: " ++ py_str o.client.region]
      ++ (if truthy o.client.manager_name then
            ["Менеджер: " ++ o.client.manager_name.getD ""] else [])
      ++ [""])
     ++ freski_full_lines o.freski
     ++ designer_full_lines o.designer_wallpapers
     ++ background_full_lines o.background_wallpapers
     ++ paintings_full_lines o.paintings
     ++ delivery_user_lines o.delivery
     ++ comment_user_lines o.comment)

/-! ### FSM states (`class OrderFlow`, bot.py lines 25-84) -/

inductive OrderFlow where
  | main_menu
  | ask_freski | freski_catalog | freski_library_catalog | freski_article
  | freski_width | freski_height | freski_material_st | freski_humidity
  | freski_crackle_aging_st | freski_color_sample
  | ask_designer_wallpapers | designer_catalog | designer_article
  | designer_panel_size | designer_panel_order | designer_production_type
  | designer_color_sample | designer_mirror
  | ask_background_wallpapers | background_material | background_catalog
  | background_article | background_height | background_width | background_color_sample
  | ask_paintings | paintings_article | paintings_canvas_width | paintings_canvas_height
  | paintings_visible_width | paintings_visible_height
  | ask_delivery_needed | delivery_type | delivery_address | delivery_carrier
  | delivery_crate | ask_comment
  | ask_legal_entity | ask_city | ask_phone | ask_email | ask_region_st
  | ask_manager_choice_st
deriving Repr, DecidableEq

/-! ### Keyboards (bot.py lines 94-159) -/

structure Button where
  text : String
  callback_data : String
deriving Repr, DecidableEq

structure Kb where
  inline_keyboard : List (List Button)
deriving Repr, DecidableEq

/-- `yes_no_kb` (bot.py lines 94-102). -/
def yes_no_kb : Kb := ⟨[[⟨"Да", "yes"⟩, ⟨"Нет", "no"⟩]]⟩

/-- Row builder of `list_kb` (bot.py lines 105-109): one button per item,
callback data `"{prefix}:{idx}"`. -/
def list_kb_rows (pre : String) : Nat → List String → List (List Button)
  | _, [] => []
  | i, item :: rest => [⟨item, pre ++ ":" ++ toString i⟩] :: list_kb_rows pre (i + 1) rest

/-- `list_kb` (bot.py lines 105-109). -/
def list_kb (items : List String) (pre : String) : Kb := ⟨list_kb_rows pre 0 items⟩

/-- `main_menu_kb` (bot.py lines 112-120). -/
def main_menu_kb : Kb :=
  ⟨[[⟨"Фрески", "menu:freski"⟩],
    [⟨"Дизайнерские обои", "menu:designer"⟩],
    [⟨"Фоновые обои", "menu:background"⟩],
    [⟨"Картины", "menu:paintings"⟩]]⟩

/-- `comment_kb` (bot.py lines 153-159). -/
def comment_kb : Kb := ⟨[[⟨"❌ Отмена", "comment:skip"⟩], [⟨"Готово", "comment:done"⟩]]⟩

/-- `merge_kb` (bot.py lines 131-139); `base_kb or nav_kb` on `None`-able values. -/
def merge_kb (base nav : Option Kb) : Option Kb :=
  match base, nav with
  | some b, some n => some ⟨b.inline_keyboard ++ n.inline_keyboard⟩
  | some b, none => some b
  | none, n => n

/-- `nav_kb` (bot.py lines 142-150). -/
def nav_kb (show_back show_continue : Bool) : Option Kb :=
  let row := (if show_back then [(⟨"Назад", "nav:back"⟩ : Button)] else [])
    ++ (if show_continue then [(⟨"Продолжить", "nav:continue"⟩ : Button)] else [])
  if row = [] then none else some ⟨[row]⟩

/-- `comment_prompt` (bot.py lines 162-171). -/
def comment_prompt (o : Order) : String :=
  let p := o.comment.photos.length
  let d := o.comment.documents.length
  "Комментарий (можно текст, фото и документы до 5 МБ каждый, общий лимит 15 МБ).\n"
  ++ "Добавляйте файлы по одному.\n"
  ++ "Добавлено " ++ toString (p + d) ++ " файлов (" ++ toString p ++ " фото, "
  ++ toString d ++ " документов)."

/-! ### Step rendering, history and navigation
(`render_step` lines 174-211, `push_current_step` lines 262-269,
`go_to_state` lines 272-282, `nav_back` lines 1975-1996,
`nav_continue` lines 1998-2013).  The single evolving chat message is the
`lastView` field; FSM session data is a `Session`. -/

structure StepDesc where
  state_name : OrderFlow
  prompt : String
  reply_markup : Option Kb
  include_nav : Bool
  order_snapshot : Order
deriving Repr, DecidableEq

structure View where
  text : String
  markup : Option Kb
deriving Repr, DecidableEq

structure Session where
  order : Order
  stateName : OrderFlow
  history : List StepDesc
  currentStep : Option StepDesc
  backMode : Bool
  resumeStep : Option StepDesc
  lastView : Option View
deriving Repr, DecidableEq

/-- The view `render_step` sends: running summary, two newlines, the prompt;
navigation row appended when `include_nav` (Back always, Continue in back mode). -/
def step_view (o : Order) (prompt : String) (reply_markup : Option Kb)
    (include_nav back_mode : Bool) : View :=
  { text := format_user_summary o ++ "\n\n" ++ prompt,
    markup := if include_nav then merge_kb reply_markup (nav_kb true back_mode)
              else reply_markup }

/-- `render_step` (bot.py lines 174-211): sends/edits the view and records the
`current_step` descriptor (state name, prompt, base keyboard, nav flag, order
snapshot). -/
def render_step (s : Session) (prompt : String) (reply_markup : Option Kb)
    (include_nav : Bool) : Session :=
  { s with
    lastView := some (step_view s.order prompt reply_markup include_nav s.backMode),
    currentStep := some { state_name := s.stateName, prompt := prompt,
                          reply_markup := reply_markup, include_nav := include_nav,
                          order_snapshot := s.order } }

/-- `push_current_step` (bot.py lines 262-269). -/
def push_current_step (s : Session) : Session :=
  match s.currentStep with
  | none => s
  | some cs => { s with history := s.history ++ [cs], backMode := false, resumeStep := none }

/-- `go_to_state` (bot.py lines 272-282). -/
def go_to_state (s : Session) (next : OrderFlow) (prompt : String)
    (reply_markup : Option Kb) (include_nav : Bool) : Session :=
  render_step { push_current_step s with stateName := next } prompt reply_markup include_nav

/-- `nav_back` (bot.py lines 1975-1996): pop the last descriptor, stash the
current one in the resume slot, enter back-review mode, re-render the popped
descriptor. -/
def nav_back (s : Session) : Session :=
  match s.history.getLast? with
  | none => s
  | some last =>
    render_step
      { s with history := s.history.dropLast, resumeStep := s.currentStep,
               backMode := true, stateName := last.state_name }
      last.prompt last.reply_markup last.include_nav

/-- `nav_continue` (bot.py lines 1998-2013): restore the resume descriptor,
clear back-review mode, re-render it. -/
def nav_continue (s : Session) : Session :=
  match s.resumeStep with
  | none => s
  | some rs =>
    render_step
      { s with backMode := false, resumeStep := none, stateName := rs.state_name }
      rs.prompt rs.reply_markup rs.include_nav

/-! ### Fresco flow handlers (bot.py lines 1493-1593) -/

/-- Handler `freski_material` (bot.py lines 1493-1541): record the material,
then branch on it. -/
def freski_material (material : String) (o : Order) : Order × OrderFlow :=
  let o1 := { o with freski := { o.freski with material := some material } }
  if material = "Саббия" ∨ material = "Саббия Фасад" ∨ material = "Пиетра" then
    (o1, OrderFlow.freski_humidity)
  else if material = "Кракелюр" then
    (o1, OrderFlow.freski_crackle_aging_st)
  else if material = "Колоре" ∨ material = "Колоре Лайт" then
    ({ o1 with freski := { o1.freski with color_sample := some "Да" } },
     OrderFlow.ask_comment)
  else
    (o1, OrderFlow.freski_color_sample)

/-- Handler `freski_crackle_aging` (bot.py lines 1559-1577): the yes/no answer
overwrites the stored material with the qualified variant. -/
def freski_crackle_aging (ans_yes : Bool) (o : Order) : Order × OrderFlow :=
  let f := o.freski
  let f1 := if ans_yes then
      { f with material := some "Кракелюр средняя степень", crackle_aging := some "Да" }
    else
      { f with material := some "Кракелюр без старения", crackle_aging := some "Нет" }
  ({ o with freski := f1 }, OrderFlow.freski_color_sample)

/-! ### Comment-step handlers (bot.py lines 1819-1948) -/

/-- Python `comment["text"]` merge of a non-empty caption (bot.py lines
1870-1873 / 1913-1916). -/
def merged_text (old : Option String) (cap : Option String) : Option String :=
  let c := cap.map (fun s => py_strip s)
  if truthy c then
    some (if truthy old then old.getD "" ++ "\n" ++ c.getD "" else c.getD "")
  else old

/-- Handler `ask_comment_photo` (bot.py lines 1845-1886).  Returns the new
order, the (unchanged) FSM state and the re-rendered prompt. -/
def ask_comment_photo (file_id : String) (file_size : Option Nat)
    (caption : Option String) (o : Order) : Order × OrderFlow × String :=
  if 5 * 1024 * 1024 < file_size.getD 0 then
    (o, OrderFlow.ask_comment,
     "Файл больше 5 МБ. Отправьте файл меньшего размера.\n\n" ++ comment_prompt o)
  else
    let c := o.comment
    let new_total := c.total_size + file_size.getD 0
    if 15 * 1024 * 1024 < new_total then
      (o, OrderFlow.ask_comment,
       "Превышен общий лимит 15 МБ. Нажмите «Готово» или удалите лишние файлы.\n\n"
       ++ comment_prompt o)
    else
      let c1 := { c with text := merged_text c.text caption,
                         photos := c.photos ++ [⟨file_id, file_size.getD 0⟩],
                         total_size := new_total }
      let o1 := { o with comment := c1 }
      (o1, OrderFlow.ask_comment, "Фото добавлено.\n" ++ comment_prompt o1)

/-- Handler `ask_comment_document` (bot.py lines 1888-1929). -/
def ask_comment_document (file_id : String) (file_size : Option Nat)
    (file_name : Option String) (caption : Option String) (o : Order) :
    Order × OrderFlow × String :=
  if 5 * 1024 * 1024 < file_size.getD 0 then
    (o, OrderFlow.ask_comment,
     "Файл больше 5 МБ. Отправьте документ меньшего размера.\n\n" ++ comment_prompt o)
  else
    let c := o.comment
    let new_total := c.total_size + file_size.getD 0
    if 15 * 1024 * 1024 < new_total then
      (o, OrderFlow.ask_comment,
       "Превышен общий лимит 15 МБ. Нажмите «Готово» или удалите лишние файлы.\n\n"
       ++ comment_prompt o)
    else
      let c1 := { c with text := merged_text c.text caption,
                         documents := c.documents ++ [⟨file_id, file_size.getD 0, file_name⟩],
                         total_size := new_total }
      let o1 := { o with comment := c1 }
      (o1, OrderFlow.ask_comment, "Документ добавлен.\n" ++ comment_prompt o1)

/-- Handler `ask_comment_text` (bot.py lines 1931-1948): a recognized skip
synonym (case-insensitively) stores `None`, anything else stores the stripped
text; the comment step is re-rendered either way. -/
def ask_comment_text (t : String) (o : Order) : Order × OrderFlow × String :=
  let txt := py_strip t
  let txt1 : Option String :=
    if py_lower txt = "пропустить" ∨ py_lower txt = "пропуск" ∨ py_lower txt = "skip"
    then none else some txt
  let o1 := { o with comment := { o.comment with text := txt1 } }
  (o1, OrderFlow.ask_comment, comment_prompt o1)

/-- Handler `ask_comment_skip` (bot.py lines 1819-1832): the cancel button
resets the whole comment record and moves on to the delivery question. -/
def ask_comment_skip (o : Order) : Order × OrderFlow × String :=
  ({ o with comment := { text := none, photos := [], documents := [], total_size := 0 } },
   OrderFlow.ask_delivery_needed, "Доставка нужна?")

/-- Sum of the recorded per-file sizes of a comment record. -/
def sum_sizes (c : CommentData) : Nat :=
  (c.photos.map PhotoRef.size).sum + (c.documents.map DocRef.size).sum

/-- An attachment event at the comment step. -/
inductive CEvent where
  | photo (file_id : String) (file_size : Option Nat) (caption : Option String)
  | doc (file_id : String) (file_size : Option Nat) (file_name : Option String)
        (caption : Option String)
deriving Repr, DecidableEq

/-- Run a sequence of attachment events through the comment-step handlers. -/
def run_comment_events : List CEvent → Order → Order
  | [], o => o
  | CEvent.photo fid fs cap :: rest, o =>
      run_comment_events rest (ask_comment_photo fid fs cap o).1
  | CEvent.doc fid fs fn cap :: rest, o =>
      run_comment_events rest (ask_comment_document fid fs fn cap o).1

/-! ### Region / manager resolution (bot.py lines 2158-2234) -/

/-- Label of a manager button in the multi-manager choice prompt
(bot.py lines 2185-2188). -/
def manager_choice_label (m : ManagerInfo) : String :=
  py_or_s (py_or m.name m.email) "Менеджер" ++ " (" ++ py_or_s m.email "без email" ++ ")"

/-- What the `ask_region` handler does after storing the region. -/
inductive RegionOutcome where
  /-- exactly one manager: auto-selected, `finalize_order` entered directly -/
  | autoFinalize
  /-- several managers: a choice keyboard is shown, the flow waits in
  `ask_manager_choice` -/
  | promptChoice (labels : List String)
  /-- no managers: `finalize_order` entered with no resolved contact -/
  | finalizeNoContact
deriving Repr, DecidableEq

/-- Handler `ask_region` (bot.py lines 2158-2197): three-way split on the
length of the chosen region's manager list. -/
def ask_region (region_managers : List ManagerInfo) (region : String) (o : Order) :
    Order × RegionOutcome :=
  let o1 := { o with client := { o.client with region := some region } }
  match region_managers with
  | [m] =>
    let c2 := { o1.client with manager_email := m.email, manager_name := py_or m.name m.email }
    ({ o1 with client := c2 }, RegionOutcome.autoFinalize)
  | [] => (o1, RegionOutcome.finalizeNoContact)
  | ms => (o1, RegionOutcome.promptChoice (ms.map manager_choice_label))

/-! ### Finalization (`finalize_order`, bot.py lines 2236-2328).
Outgoing transmissions are recorded as `SendEffect`s; the SMTP outcome for a
given address is an oracle `send : String -> Option String` (`none` =
delivered, `some e` = the exception text caught by the handler).  The
attachment download loop (lines 2255-2292) only assembles e-mail attachments
from the transport and catches its own errors; it is not modelled.  Note that
`finalize_order` reads neither `config.forward_to_admins` nor
`config.admin_ids`: no effect directed at an administrator exists in the code. -/

inductive SendEffect where
  | emailAttempt (to_addr subj body : String) (err : Option String)
  | customerReply (text : String)
deriving Repr, DecidableEq

/-- Region lookup `current_managers.get(region, [])` over the managers map
(an insertion-ordered association list, as a Python dict). -/
def lookup_region (mm : List (String × List ManagerInfo)) :
    Option String → List ManagerInfo
  | none => []
  | some r =>
    match mm.find? (fun p => p.1 == r) with
    | some p => p.2
    | none => []

/-- `target_managers` (bot.py lines 2250-2253): the region's list, filtered to
the selected manager when one was chosen earlier. -/
def target_managers (mm : List (String × List ManagerInfo)) (o : Order) :
    List ManagerInfo :=
  let manager_list := lookup_region mm o.client.region
  if truthy o.client.manager_email then
    manager_list.filter (fun m => m.email == o.client.manager_email)
  else manager_list

/-- The per-manager send loop (bot.py lines 2294-2315): managers without an
e-mail get a `нет email` error entry and no attempt; failures of attempted
sends are caught and recorded per recipient; the loop never aborts.
Returns (effects, manager_errors, successful_sends). -/
def send_to_managers (send : String → Option String) (summary : String) :
    List ManagerInfo → List SendEffect × List String × Nat
  | [] => ([], [], 0)
  | m :: rest =>
    let r := send_to_managers send summary rest
    if truthy m.email then
      let addr := m.email.getD ""
      match send addr with
      | none =>
        (SendEffect.emailAttempt addr "Новая заявка" summary none :: r.1,
         r.2.1, r.2.2 + 1)
      | some e =>
        (SendEffect.emailAttempt addr "Новая заявка" summary (some e) :: r.1,
         ((py_or m.name m.email).getD "" ++ " (" ++ addr ++ "): " ++ e) :: r.2.1, r.2.2)
    else
      (r.1, (py_or_s m.name "Без имени" ++ ": нет email") :: r.2.1, r.2.2)

/-- The closing confirmation text sent to the customer
(bot.py lines 2320-2325): built from the order alone. -/
def customer_message (o : Order) : String :=
  "Спасибо за вашу заявку!\n\n" ++ "Ваша заявка:\n" ++ format_user_summary o
  ++ "\n\nМы свяжемся с вами в ближайшее время."

structure FinalizeResult where
  effects : List SendEffect
  manager_errors : List String
  successful_sends : Nat
deriving Repr, DecidableEq

/-- `finalize_order` (bot.py lines 2236-2328). -/
def finalize_order (mm : List (String × List ManagerInfo))
    (send : String → Option String) (o : Order) : FinalizeResult :=
  let summary := format_summary o
  let tm := target_managers mm o
  let r := send_to_managers send summary tm
  { effects := r.1 ++ [SendEffect.customerReply (customer_message o)],
    manager_errors := r.2.1,
    successful_sends := r.2.2 }

/-- The e-mail addresses of the delivery attempts in an effect list. -/
def email_addrs : List SendEffect → List String
  | [] => []
  | SendEffect.emailAttempt a _ _ _ :: rest => a :: email_addrs rest
  | SendEffect.customerReply _ :: rest => email_addrs rest

/-- `forward_to_admins` (config.py lines 144-145), default `true`.  `bot.py`
never reads this flag: `finalize_order` takes no corresponding input. -/
def forward_to_admins_default : Bool := true

/-! ### Concrete sessions for the navigation claims, built by running the
embedded handlers of the happy path `/start` -> `Фрески` -> catalog choice
(`start` lines 771-781, `main_menu` lines 796-814, `freski_catalog`
lines 1405-1431). -/

/-- The `/start` handler (bot.py lines 771-781): fresh empty order, main menu
rendered without navigation controls (canned start text left at its default). -/
def start_session (tg : String) : Session :=
  render_step
    { order := build_empty_order tg, stateName := OrderFlow.main_menu, history := [],
      currentStep := none, backMode := false, resumeStep := none, lastView := none }
    "Выберите раздел:" (some main_menu_kb) false

/-- The `main_menu` handler, `menu:freski` branch (bot.py lines 802-814),
with the canned fresco text at its default `"Фрески"`. -/
def main_menu_freski (s : Session) : Session :=
  let o := { s.order with freski := { s.order.freski with enabled := true } }
  go_to_state { s with order := o } OrderFlow.freski_catalog
    ("Фрески" ++ "\n\nКаталог:") (some (list_kb freski_catalogs "freski_catalog")) true

/-- The `freski_catalog` handler, non-library branch (bot.py lines 1424-1431). -/
def freski_catalog_individual (s : Session) : Session :=
  let o := { s.order with freski :=
    { s.order.freski with catalog_name := some "Индивидуальная отрисовка" } }
  go_to_state { s with order := o } OrderFlow.freski_article
    "Индивидуальная отрисовка\n\nАртикул:" none true

/-- A session sitting in back-review mode: the catalog step re-shown after one
`Back` from the article step (history still holds the main-menu step). -/
def s_pre : Session :=
  nav_back (freski_catalog_individual (main_menu_freski (start_session "@u (id 1)")))

/-- A forward-mode session at the article step, used as witness input. -/
def s_w5 : Session :=
  freski_catalog_individual (main_menu_freski (start_session "@u (id 2)"))

/-- The order held by `s_w5`. -/
def o_w5 : Order :=
  { build_empty_order "@u (id 2)" with freski :=
    { (build_empty_order "@u (id 2)").freski with
      enabled := true
      catalog_name := some "Индивидуальная отрисовка" } }

/-- The current-step descriptor of `s_w5` (the article step). -/
def d_w5 : StepDesc :=
  { state_name := OrderFlow.freski_article, prompt := "Индивидуальная отрисовка\n\nАртикул:",
    reply_markup := none, include_nav := true, order_snapshot := o_w5 }

/-- The order held by `s_w5` when the catalog step was rendered. -/
def o_w9 : Order :=
  { build_empty_order "@u (id 2)" with freski :=
    { (build_empty_order "@u (id 2)").freski with enabled := true } }

/-- The descriptor on top of `s_w5`'s history (the catalog step). -/
def d_w9 : StepDesc :=
  { state_name := OrderFlow.freski_catalog, prompt := "Фрески\n\nКаталог:",
    reply_markup := some (list_kb freski_catalogs "freski_catalog"),
    include_nav := true, order_snapshot := o_w9 }

/-! ### Concrete finalization inputs -/

/-- An SMTP oracle under which every delivery succeeds. -/
def send_none : String → Option String := fun _ => none

/-- One region with a single e-mail manager. -/
def mm_c2 : List (String × List ManagerInfo) :=
  [("Центр", [{ name := some "Мария", email := some "m@x.ru", chat_id := none }])]

/-- A completed order for the region of `mm_c2`. -/
def o_c2 : Order :=
  (ask_region (lookup_region mm_c2 (some "Центр")) "Центр"
    { build_empty_order "@u (id 4)" with
      client := { (build_empty_order "@u (id 4)").client with
                  legal_entity := some "ООО Ромашка"
                  city := some "Казань"
                  phone := some "+79000000000"
                  email := some "a@b.com" } }).1

/-- One region whose only manager has a chat id but no e-mail address. -/
def mm_c10 : List (String × List ManagerInfo) :=
  [("Центр", [{ name := some "Иван", email := none, chat_id := some 10 }])]

/-- The order after choosing the region of `mm_c10`. -/
def o_c10 : Order :=
  (ask_region (lookup_region mm_c10 (some "Центр")) "Центр" (build_empty_order "@u (id 3)")).1

/-- A mixed region: one chat-id-only manager next to one e-mail manager. -/
def mm_c10b : List (String × List ManagerInfo) :=
  [("Центр", [{ name := some "Иван", email := none, chat_id := some 10 },
              { name := some "Мария", email := some "m2@x.ru", chat_id := none }])]

/-- The order after choosing the region of `mm_c10b` (two managers, so only
the region is recorded and no manager is selected). -/
def o_c10b : Order :=
  (ask_region (lookup_region mm_c10b (some "Центр")) "Центр"
    (build_empty_order "@u (id 11)")).1

/-- Region-resolution witness inputs. -/
def one_mgr : ManagerInfo := { name := some "Анна", email := some "a@x.ru", chat_id := none }

def two_mgrs : List ManagerInfo :=
  [{ name := some "Анна", email := some "a@x.ru", chat_id := none },
   { name := none, email := some "b@x.ru", chat_id := some 5 }]

def o_base : Order := build_empty_order "@u (id 5)"

/-- Order with the fresco section enabled and an article recorded. -/
def o_w6 : Order :=
  { build_empty_order "@u (id 6)" with freski :=
    { (build_empty_order "@u (id 6)").freski with
      enabled := true
      article := some "ID-100" } }

def o_c7 : Order := build_empty_order "@u (id 7)"

def o_c8 : Order := build_empty_order "@u (id 8)"

/-- A 6 MB attachment, above the 5 MB per-file ceiling. -/
def fs_big : Option Nat := some (6 * 1024 * 1024)

/-! ## Helper lemmas -/

theorem mem_if_block {b : Bool} {l : List String} {x : String} :
    x ∈ (if b then l else []) ↔ b = true ∧ x ∈ l := by
  cases b <;> simp

theorem truthy_ne_none {v : Option String} (h : truthy v = true) : v ≠ none := by
  cases v <;> simp_all [truthy]

theorem isSome_ne_none {α : Type} {v : Option α} (h : v.isSome = true) : v ≠ none := by
  cases v <;> simp_all

theorem send_to_managers_errors (send : String → Option String) (summary : String) :
    ∀ ms : List ManagerInfo,
      (send_to_managers send summary ms).2.1 =
        ms.filterMap (fun m =>
          if truthy m.email then
            match send (m.email.getD "") with
            | some e => some ((py_or m.name m.email).getD "" ++ " (" ++ m.email.getD ""
                              ++ "): " ++ e)
            | none => none
          else some (py_or_s m.name "Без имени" ++ ": нет email")) := by
  intro ms
  induction ms with
  | nil => rfl
  | cons m rest ih =>
    by_cases h : truthy m.email
    · simp only [send_to_managers, h, if_true, List.filterMap_cons]
      cases hs : send (m.email.getD "") <;> simp [hs, ih]
    · simp [send_to_managers, h, List.filterMap_cons, ih]

theorem send_to_managers_no_email (send : String → Option String) (summary : String) :
    ∀ ms : List ManagerInfo, (∀ m ∈ ms, truthy m.email = false) →
      send_to_managers send summary ms =
        ([], ms.map (fun m => py_or_s m.name "Без имени" ++ ": нет email"), 0) := by
  intro ms
  induction ms with
  | nil => intro _; rfl
  | cons m rest ih =>
    intro hall
    have hm : truthy m.email = false := hall m (by simp)
    have ihh := ih (fun x hx => hall x (by simp [hx]))
    simp [send_to_managers, hm, ihh]

theorem email_addrs_append (l1 l2 : List SendEffect) :
    email_addrs (l1 ++ l2) = email_addrs l1 ++ email_addrs l2 := by
  induction l1 with
  | nil => rfl
  | cons e rest ih => cases e <;> simp [email_addrs, ih]

theorem email_addrs_filterMap (send : String → Option String) (summary : String)
    (ms : List ManagerInfo) :
    email_addrs ((send_to_managers send summary ms).1) =
      ms.filterMap (fun m => if truthy m.email then some (m.email.getD "") else none) := by
  induction ms with
  | nil => rfl
  | cons m rest ih =>
    by_cases h : truthy m.email
    · simp only [send_to_managers, h, if_true]
      cases hs : send (m.email.getD "") <;>
        simp [hs, email_addrs, ih, List.filterMap_cons, h]
    · simp [send_to_managers, h, ih, List.filterMap_cons]

theorem photo_step_inv (fid : String) (fs : Option Nat) (cap : Option String) (o : Order)
    (h : sum_sizes o.comment = o.comment.total_size) :
    sum_sizes (ask_comment_photo fid fs cap o).1.comment =
      (ask_comment_photo fid fs cap o).1.comment.total_size := by
  by_cases h1 : 5 * 1024 * 1024 < fs.getD 0
  · simpa [ask_comment_photo, h1] using h
  · by_cases h2 : 15 * 1024 * 1024 < o.comment.total_size + fs.getD 0
    · simpa [ask_comment_photo, h1, h2] using h
    · simp [ask_comment_photo, h1, h2, sum_sizes] at h ⊢
      omega

theorem doc_step_inv (fid : String) (fs : Option Nat) (fn cap : Option String) (o : Order)
    (h : sum_sizes o.comment = o.comment.total_size) :
    sum_sizes (ask_comment_document fid fs fn cap o).1.comment =
      (ask_comment_document fid fs fn cap o).1.comment.total_size := by
  by_cases h1 : 5 * 1024 * 1024 < fs.getD 0
  · simpa [ask_comment_document, h1] using h
  · by_cases h2 : 15 * 1024 * 1024 < o.comment.total_size + fs.getD 0
    · simpa [ask_comment_document, h1, h2] using h
    · simp [ask_comment_document, h1, h2, sum_sizes] at h ⊢
      omega

theorem run_events_inv : ∀ (evs : List CEvent) (o : Order),
    sum_sizes o.comment = o.comment.total_size →
    sum_sizes (run_comment_events evs o).comment =
      (run_comment_events evs o).comment.total_size := by
  intro evs
  induction evs with
  | nil => intro o h; exact h
  | cons e rest ih =>
    intro o h
    cases e with
    | photo fid fs cap => exact ih _ (photo_step_inv fid fs cap o h)
    | doc fid fs fn cap => exact ih _ (doc_step_inv fid fs fn cap o h)

/-! ## Claim theorems -/

/-- C1: the fresco material-to-next-state table is total over the configured
material list: Саббия / Саббия Фасад / Пиетра go to the humidity question;
Кракелюр goes to the aging question whose answer overwrites the material with
the qualified variant; Колоре / Колоре Лайт pre-set the color proof to "Да"
and jump straight to the comment step; every other configured material goes
to the generic color-proof question; the chosen material is always recorded. -/
theorem c1_fresco_material_table :
    ∀ m ∈ freski_materials, ∀ o : Order,
      ((m = "Саббия" ∨ m = "Саббия Фасад" ∨ m = "Пиетра") →
        (freski_material m o).2 = OrderFlow.freski_humidity) ∧
      (m = "Кракелюр" →
        (freski_material m o).2 = OrderFlow.freski_crackle_aging_st ∧
        (freski_crackle_aging true o).1.freski.material = some "Кракелюр средняя степень" ∧
        (freski_crackle_aging false o).1.freski.material = some "Кракелюр без старения" ∧
        (freski_crackle_aging true o).2 = OrderFlow.freski_color_sample ∧
        (freski_crackle_aging false o).2 = OrderFlow.freski_color_sample) ∧
      ((m = "Колоре" ∨ m = "Колоре Лайт") →
        (freski_material m o).2 = OrderFlow.ask_comment ∧
        (freski_material m o).1.freski.color_sample = some "Да") ∧
      (m ∉ ["Саббия", "Саббия Фасад", "Пиетра", "Кракелюр", "Колоре", "Колоре Лайт"] →
        (freski_material m o).2 = OrderFlow.freski_color_sample) ∧
      (freski_material m o).1.freski.material = some m := by
  intro m hm o
  fin_cases hm <;>
    refine ⟨fun h => ?_, fun h => ?_, fun h => ?_, fun h => ?_, rfl⟩ <;>
    first
      | exact absurd h (by decide)
      | exact rfl
      | exact ⟨rfl, rfl⟩
      | exact ⟨rfl, rfl, rfl, rfl, rfl⟩

/-- C1 witness: the Кракелюр row of the table at a concrete order. -/
theorem c1_fresco_material_table_witness :
    (freski_material "Кракелюр" (build_empty_order "@u (id 10)")).2 =
      OrderFlow.freski_crackle_aging_st ∧
    (freski_crackle_aging true (build_empty_order "@u (id 10)")).1.freski.material =
      some "Кракелюр средняя степень" ∧
    (freski_crackle_aging false (build_empty_order "@u (id 10)")).1.freski.material =
      some "Кракелюр без старения" ∧
    (freski_crackle_aging true (build_empty_order "@u (id 10)")).2 =
      OrderFlow.freski_color_sample ∧
    (freski_crackle_aging false (build_empty_order "@u (id 10)")).2 =
      OrderFlow.freski_color_sample :=
  (c1_fresco_material_table "Кракелюр" (by decide) (build_empty_order "@u (id 10)")).2.1 rfl

/-- C2: `finalize_order` produces only manager e-mail attempts and the single
customer reply; no effect addressed to an administrator exists, even though
`config.forward_to_admins` defaults to true — the flag is never read by
bot.py, so the function has no input for it.  First conjunct: the complete
effect trace of a completed order with admin forwarding nominally enabled;
second conjunct: the effect trace always consists of the manager send loop
followed by the customer reply. -/
theorem c2_finalize_sends_no_admin_notification :
    (forward_to_admins_default = true ∧
     (finalize_order mm_c2 send_none o_c2).effects =
       [SendEffect.emailAttempt "m@x.ru" "Новая заявка" (format_summary o_c2) none,
        SendEffect.customerReply (customer_message o_c2)]) ∧
    (∀ (send : String → Option String) mm o,
       (finalize_order mm send o).effects =
         (send_to_managers send (format_summary o) (target_managers mm o)).1
         ++ [SendEffect.customerReply (customer_message o)]) :=
  ⟨⟨rfl, by set_option maxRecDepth 4000 in decide⟩, fun _ _ _ => rfl⟩

/-- C3: recipient resolution is a three-way split on the manager-list length:
one manager is auto-selected (name or e-mail recorded) and finalization is
entered directly; several managers yield a choice prompt and no finalization;
zero managers proceed to finalization with only the region recorded. -/
theorem c3_region_resolution (region_managers : List ManagerInfo) (region : String)
    (o : Order) :
    (∀ m, region_managers = [m] →
      ask_region region_managers region o =
        ({ o with client := { o.client with
                              region := some region
                              manager_email := m.email
                              manager_name := py_or m.name m.email } },
         RegionOutcome.autoFinalize)) ∧
    (2 ≤ region_managers.length →
      (ask_region region_managers region o).2 =
        RegionOutcome.promptChoice (region_managers.map manager_choice_label) ∧
      (ask_region region_managers region o).1 =
        { o with client := { o.client with region := some region } }) ∧
    (region_managers = [] →
      ask_region region_managers region o =
        ({ o with client := { o.client with region := some region } },
         RegionOutcome.finalizeNoContact)) := by
  refine ⟨?_, ?_, ?_⟩
  · rintro m rfl
    rfl
  · intro hlen
    match region_managers, hlen with
    | a :: b :: rest, _ => exact ⟨rfl, rfl⟩
  · rintro rfl
    rfl

/-- C3 witness: the three split cases at concrete manager lists. -/
theorem c3_region_resolution_witness :
    (ask_region [one_mgr] "Юг" o_base =
      ({ o_base with client := { o_base.client with
                                 region := some "Юг"
                                 manager_email := one_mgr.email
                                 manager_name := py_or one_mgr.name one_mgr.email } },
       RegionOutcome.autoFinalize)) ∧
    ((ask_region two_mgrs "Юг" o_base).2 =
      RegionOutcome.promptChoice (two_mgrs.map manager_choice_label)) ∧
    (ask_region [] "Юг" o_base =
      ({ o_base with client := { o_base.client with region := some "Юг" } },
       RegionOutcome.finalizeNoContact)) :=
  ⟨(c3_region_resolution [one_mgr] "Юг" o_base).1 one_mgr rfl,
   ((c3_region_resolution two_mgrs "Юг" o_base).2.1 (by decide)).1,
   (c3_region_resolution [] "Юг" o_base).2.2 rfl⟩

/-- C4: finalization always ends with the customer confirmation, whose text is
a function of the order alone (so no failure text can appear in it); every
manager with an e-mail address is attempted regardless of other outcomes; and
each failure is recorded per recipient in `manager_errors`. -/
theorem c4_customer_confirmation (mm : List (String × List ManagerInfo))
    (send : String → Option String) (o : Order) :
    (finalize_order mm send o).effects.getLast? =
      some (SendEffect.customerReply (customer_message o)) ∧
    email_addrs (finalize_order mm send o).effects =
      (target_managers mm o).filterMap
        (fun m => if truthy m.email then some (m.email.getD "") else none) ∧
    (finalize_order mm send o).manager_errors =
      (target_managers mm o).filterMap (fun m =>
        if truthy m.email then
          match send (m.email.getD "") with
          | some e => some ((py_or m.name m.email).getD "" ++ " (" ++ m.email.getD ""
                            ++ "): " ++ e)
          | none => none
        else some (py_or_s m.name "Без имени" ++ ": нет email")) := by
  refine ⟨by simp [finalize_order], ?_, ?_⟩
  · show email_addrs ((send_to_managers send (format_summary o) (target_managers mm o)).1
        ++ [SendEffect.customerReply (customer_message o)]) = _
    rw [email_addrs_append, email_addrs_filterMap]
    simp [email_addrs]
  · exact send_to_managers_errors send (format_summary o) (target_managers mm o)

/-- C5 counterexample: from a session already in back-review mode (reachable
by one Back after two forward steps), pressing Back and then Continue renders
a view that differs from the one current before the Back — the re-render uses
`back_mode = False`, so the Продолжить button present before is gone. -/
theorem c5_roundtrip_counterexample :
    s_pre.history ≠ [] ∧
    (nav_continue (nav_back s_pre)).lastView ≠ s_pre.lastView := by
  refine ⟨by decide, by set_option maxRecDepth 8000 in decide⟩

/-- C5 (amended): Back then Continue is a byte-identical round-trip whenever
the view current before the Back was rendered outside back-review mode (as
every forward-rendered view is); Continue restores the resume descriptor and
clears back-review mode.  When the pre-Back view was itself a back-review
view, only its Продолжить navigation button is lost (see the counterexample). -/
theorem c5_back_continue_roundtrip (s : Session) (cs : StepDesc)
    (hne : s.history ≠ []) (hbm : s.backMode = false)
    (hcs : s.currentStep = some cs)
    (hlv : s.lastView =
      some (step_view s.order cs.prompt cs.reply_markup cs.include_nav s.backMode)) :
    (nav_continue (nav_back s)).lastView = s.lastView ∧
    (nav_back s).resumeStep = s.currentStep ∧
    (nav_back s).backMode = true ∧
    (nav_continue (nav_back s)).backMode = false ∧
    (nav_continue (nav_back s)).resumeStep = none := by
  obtain ⟨d, hd⟩ : ∃ d, s.history.getLast? = some d := by
    cases hh : s.history.getLast? with
    | none => exact absurd (List.getLast?_eq_none_iff.mp hh) hne
    | some d => exact ⟨d, rfl⟩
  unfold nav_back
  rw [hd]
  unfold nav_continue
  simp [render_step, step_view, hcs, hlv, hbm]

/-- C5 witness: the round-trip at the concrete forward-mode session `s_w5`. -/
theorem c5_back_continue_roundtrip_witness :
    (nav_continue (nav_back s_w5)).lastView = s_w5.lastView ∧
    (nav_back s_w5).resumeStep = s_w5.currentStep ∧
    (nav_back s_w5).backMode = true ∧
    (nav_continue (nav_back s_w5)).backMode = false ∧
    (nav_continue (nav_back s_w5)).resumeStep = none :=
  c5_back_continue_roundtrip s_w5 d_w5 (by decide) rfl (by decide)
    (by set_option maxRecDepth 8000 in decide)

/-- C6: in the rendered user summary, each product category contributes lines
iff its enable flag is set, and every line of an enabled section is either a
fixed header/constant/blank or a field line whose source field is non-null.
The first four conjuncts give the section-level iff, the fifth ties the
sections to `format_user_summary`, and the last four characterize every
emitted line of each category. -/
theorem c6_summary_gating (o : Order) :
    (freski_user_lines o.freski = [] ↔ o.freski.enabled = false) ∧
    (designer_user_lines o.designer_wallpapers = [] ↔
      o.designer_wallpapers.enabled = false) ∧
    (background_user_lines o.background_wallpapers = [] ↔
      o.background_wallpapers.enabled = false) ∧
    (paintings_user_lines o.paintings = [] ↔ o.paintings.enabled = false) ∧
    (format_user_summary o = String.intercalate "\n"
      (client_user_lines o.client
       ++ freski_user_lines o.freski
       ++ designer_user_lines o.designer_wallpapers
       ++ background_user_lines o.background_wallpapers
       ++ paintings_user_lines o.paintings
       ++ delivery_user_lines o.delivery
       ++ comment_user_lines o.comment)) ∧
    (∀ x ∈ freski_user_lines o.freski,
      x = "ФРЕСКИ" ∨ x = "" ∨
      (o.freski.catalog_name ≠ none ∧
        x = "Каталог: " ++ safe_value_s o.freski.catalog_name) ∨
      (o.freski.article ≠ none ∧
        x = "Артикул: " ++ safe_value_s o.freski.article) ∨
      (o.freski.size_cm.width ≠ none ∧
        x = "Ширина, см: " ++ safe_value_s o.freski.size_cm.width) ∨
      (o.freski.size_cm.height ≠ none ∧
        x = "Высота, см: " ++ safe_value_s o.freski.size_cm.height) ∨
      (o.freski.material ≠ none ∧
        x = "Материал: " ++ safe_value_s o.freski.material) ∨
      (o.freski.color_sample ≠ none ∧
        x = "Цветопроба: " ++ safe_value_s o.freski.color_sample) ∨
      (o.freski.hydro_insulation ≠ none ∧
        x = "Гидроизоляция: " ++ safe_value_s o.freski.hydro_insulation) ∨
      (o.freski.crackle_aging ≠ none ∧
        x = "Старение: " ++ safe_value_s o.freski.crackle_aging)) ∧
    (∀ x ∈ designer_user_lines o.designer_wallpapers,
      x = "ДИЗАЙНЕРСКИЕ ОБОИ" ∨ x = "Материал: Велюр" ∨ x = "" ∨
      (o.designer_wallpapers.catalog_name ≠ none ∧
        x = "Каталог: " ++ safe_value_s o.designer_wallpapers.catalog_name) ∨
      (o.designer_wallpapers.article ≠ none ∧
        x = "Артикул: " ++ safe_value_s o.designer_wallpapers.article) ∨
      (o.designer_wallpapers.panel_size_cm ≠ none ∧
        x = "Размер панели: " ++ safe_value_s o.designer_wallpapers.panel_size_cm) ∨
      (o.designer_wallpapers.panels_order_left_to_right ≠ none ∧
        x = "Порядок панелей: "
          ++ safe_value_s o.designer_wallpapers.panels_order_left_to_right) ∨
      (o.designer_wallpapers.production_type ≠ none ∧
        x = "Тип производства: " ++ safe_value_s o.designer_wallpapers.production_type) ∨
      (o.designer_wallpapers.color_sample.required ≠ none ∧
        x = "Цветопроба нужна: "
          ++ safe_value_b o.designer_wallpapers.color_sample.required) ∨
      (o.designer_wallpapers.mirror ≠ none ∧
        x = "Отзеркалить: " ++ safe_value_s o.designer_wallpapers.mirror)) ∧
    (∀ x ∈ background_user_lines o.background_wallpapers,
      x = "ФОНОВЫЕ ОБОИ" ∨ x = "" ∨
      (o.background_wallpapers.catalog_name ≠ none ∧
        x = "Каталог: " ++ safe_value_s o.background_wallpapers.catalog_name) ∨
      (o.background_wallpapers.article ≠ none ∧
        x = "Артикул: " ++ safe_value_s o.background_wallpapers.article) ∨
      (o.background_wallpapers.material_type ≠ none ∧
        x = "Материал: " ++ safe_value_s o.background_wallpapers.material_type) ∨
      (o.background_wallpapers.size_cm.width ≠ none ∧
        x = "Ширина, см: " ++ safe_value_s o.background_wallpapers.size_cm.width) ∨
      (o.background_wallpapers.size_cm.height ≠ none ∧
        x = "Высота, см: " ++ safe_value_s o.background_wallpapers.size_cm.height) ∨
      (o.background_wallpapers.color_sample.required ≠ none ∧
        x = "Цветопроба нужна: "
          ++ safe_value_b o.background_wallpapers.color_sample.required)) ∧
    (∀ x ∈ paintings_user_lines o.paintings,
      x = "КАРТИНЫ ИЗ КАТАЛОГА ФРЕСКИ И ИНДИВИДУАЛЬНЫЕ ИЗОБРАЖЕНИЯ" ∨
      x = "Материал: Итальянский холст" ∨ x = "Макс. размер, см: 450 x 140" ∨
      x = "Полный размер холста, см:" ∨ x = "Видимый размер изображения, см:" ∨ x = "" ∨
      (o.paintings.article ≠ none ∧
        x = "Артикул: " ++ safe_value_s o.paintings.article) ∨
      (o.paintings.canvas_total_size_cm.width ≠ none ∧
        x = "  Ширина: " ++ safe_value_s o.paintings.canvas_total_size_cm.width) ∨
      (o.paintings.canvas_total_size_cm.height ≠ none ∧
        x = "  Высота: " ++ safe_value_s o.paintings.canvas_total_size_cm.height) ∨
      (o.paintings.visible_image_size_cm.width ≠ none ∧
        x = "  Ширина: " ++ safe_value_s o.paintings.visible_image_size_cm.width) ∨
      (o.paintings.visible_image_size_cm.height ≠ none ∧
        x = "  Высота: " ++ safe_value_s o.paintings.visible_image_size_cm.height)) := by
  refine ⟨?_, ?_, ?_, ?_, rfl, ?_, ?_, ?_, ?_⟩
  · cases he : o.freski.enabled <;> simp [freski_user_lines, he]
  · cases he : o.designer_wallpapers.enabled <;> simp [designer_user_lines, he]
  · cases he : o.background_wallpapers.enabled <;> simp [background_user_lines, he]
  · cases he : o.paintings.enabled <;> simp [paintings_user_lines, he]
  · intro x hx
    by_cases he : o.freski.enabled
    · simp only [freski_user_lines, he, if_true, List.mem_append, List.mem_cons,
        List.mem_singleton, List.not_mem_nil, or_false, false_or, mem_if_block] at hx
      casesm* _ ∨ _, _ ∧ _ <;> simp_all [truthy_ne_none, isSome_ne_none]
    · simp [freski_user_lines, he] at hx
  · intro x hx
    by_cases he : o.designer_wallpapers.enabled
    · simp only [designer_user_lines, he, if_true, List.mem_append, List.mem_cons,
        List.mem_singleton, List.not_mem_nil, or_false, false_or, mem_if_block] at hx
      casesm* _ ∨ _, _ ∧ _ <;> simp_all [truthy_ne_none, isSome_ne_none]
    · simp [designer_user_lines, he] at hx
  · intro x hx
    by_cases he : o.background_wallpapers.enabled
    · simp only [background_user_lines, he, if_true, List.mem_append, List.mem_cons,
        List.mem_singleton, List.not_mem_nil, or_false, false_or, mem_if_block] at hx
      casesm* _ ∨ _, _ ∧ _ <;> simp_all [truthy_ne_none, isSome_ne_none]
    · simp [background_user_lines, he] at hx
  · intro x hx
    by_cases he : o.paintings.enabled
    · simp only [paintings_user_lines, he, if_true, List.mem_append, List.mem_cons,
        List.mem_singleton, List.not_mem_nil, or_false, false_or, mem_if_block] at hx
      casesm* _ ∨ _, _ ∧ _ <;> simp_all [truthy_ne_none, isSome_ne_none]
    · simp [paintings_user_lines, he] at hx

/-- C6 witness: the article line of the enabled fresco section of `o_w6` is
characterized by the theorem. -/
theorem c6_summary_gating_witness :
    "Артикул: ID-100" = "ФРЕСКИ" ∨ "Артикул: ID-100" = "" ∨
    (o_w6.freski.catalog_name ≠ none ∧
      "Артикул: ID-100" = "Каталог: " ++ safe_value_s o_w6.freski.catalog_name) ∨
    (o_w6.freski.article ≠ none ∧
      "Артикул: ID-100" = "Артикул: " ++ safe_value_s o_w6.freski.article) ∨
    (o_w6.freski.size_cm.width ≠ none ∧
      "Артикул: ID-100" = "Ширина, см: " ++ safe_value_s o_w6.freski.size_cm.width) ∨
    (o_w6.freski.size_cm.height ≠ none ∧
      "Артикул: ID-100" = "Высота, см: " ++ safe_value_s o_w6.freski.size_cm.height) ∨
    (o_w6.freski.material ≠ none ∧
      "Артикул: ID-100" = "Материал: " ++ safe_value_s o_w6.freski.material) ∨
    (o_w6.freski.color_sample ≠ none ∧
      "Артикул: ID-100" = "Цветопроба: " ++ safe_value_s o_w6.freski.color_sample) ∨
    (o_w6.freski.hydro_insulation ≠ none ∧
      "Артикул: ID-100" = "Гидроизоляция: " ++ safe_value_s o_w6.freski.hydro_insulation) ∨
    (o_w6.freski.crackle_aging ≠ none ∧
      "Артикул: ID-100" = "Старение: " ++ safe_value_s o_w6.freski.crackle_aging) :=
  (c6_summary_gating o_w6).2.2.2.2.2.1 "Артикул: ID-100" (by decide)

/-- C7 counterexample: typing the skip synonym "Пропустить" stores null for
the comment text (as the claim says) but renders no "skipped" label at all:
the user summary is byte-identical to the summary before the input, and the
comment section contributes zero lines. -/
theorem c7_skip_label_counterexample :
    (ask_comment_text "Пропустить" o_c7).1.comment.text = none ∧
    format_user_summary (ask_comment_text "Пропустить" o_c7).1 =
      format_user_summary o_c7 ∧
    comment_user_lines (ask_comment_text "Пропустить" o_c7).1.comment = [] := by
  refine ⟨by decide, by set_option maxRecDepth 4000 in decide, by decide⟩

/-- C7 (amended): skipping the comment step via a typed synonym (any letter
case) or via the cancel button stores null for the text field, stays on /
leaves the comment step, and the summary never echoes the synonym: every
remaining comment-section line is the fixed header, an attachment-count line
or the blank separator — the text line is omitted entirely, and no "skipped"
label exists. -/
theorem c7_skip_stores_null (t : String) (o : Order)
    (hsyn : py_lower (py_strip t) = "пропустить" ∨ py_lower (py_strip t) = "пропуск" ∨
            py_lower (py_strip t) = "skip") :
    (ask_comment_text t o).1.comment.text = none ∧
    (ask_comment_text t o).2.1 = OrderFlow.ask_comment ∧
    (∀ x ∈ comment_user_lines (ask_comment_text t o).1.comment,
       x = "КОММЕНТАРИИ" ∨ x = "" ∨
       x = "Фото: " ++ toString o.comment.photos.length ++ " шт." ∨
       x = "Документы: " ++ toString o.comment.documents.length ++ " шт.") ∧
    (ask_comment_skip o).1.comment =
      { text := none, photos := [], documents := [], total_size := 0 } ∧
    comment_user_lines (ask_comment_skip o).1.comment = [] := by
  have htxt : (ask_comment_text t o).1 =
      { o with comment := { o.comment with text := none } } := by
    simp only [ask_comment_text]
    rw [if_pos hsyn]
  refine ⟨by rw [htxt], rfl, ?_, rfl,
          by simp [ask_comment_skip, comment_user_lines, truthy]⟩
  rw [htxt]
  intro x hx
  simp only [comment_user_lines, truthy, mem_if_block, List.mem_append, List.mem_cons,
    List.mem_singleton, List.not_mem_nil, or_false, false_or] at hx
  casesm* _ ∨ _, _ ∧ _ <;> simp_all

/-- C7 witness: the upper-case synonym "SKIP" at a concrete order. -/
theorem c7_skip_stores_null_witness :
    (ask_comment_text "SKIP" o_c8).1.comment.text = none ∧
    (ask_comment_skip o_c8).1.comment =
      { text := none, photos := [], documents := [], total_size := 0 } ∧
    comment_user_lines (ask_comment_skip o_c8).1.comment = [] :=
  ⟨(c7_skip_stores_null "SKIP" o_c8 (by decide)).1,
   (c7_skip_stores_null "SKIP" o_c8 (by decide)).2.2.2.1,
   (c7_skip_stores_null "SKIP" o_c8 (by decide)).2.2.2.2⟩

/-- C8: attachment accounting is exact and guarded: an over-5 MB file, or one
that would push the running total over 15 MB, is rejected with the whole
order (per-file lists and total) unchanged and the state pointer still at the
comment step; each accepted attachment preserves the invariant that the
recorded per-file sizes sum to the running total, and that invariant holds
after any sequence of attachment events from a fresh order. -/
theorem c8_attachment_accounting :
    (∀ (fid : String) (fs : Option Nat) (cap : Option String) (o : Order),
       5 * 1024 * 1024 < fs.getD 0 →
       (ask_comment_photo fid fs cap o).1 = o ∧
       (ask_comment_photo fid fs cap o).2.1 = OrderFlow.ask_comment) ∧
    (∀ (fid : String) (fs : Option Nat) (cap : Option String) (o : Order),
       ¬ 5 * 1024 * 1024 < fs.getD 0 →
       15 * 1024 * 1024 < o.comment.total_size + fs.getD 0 →
       (ask_comment_photo fid fs cap o).1 = o ∧
       (ask_comment_photo fid fs cap o).2.1 = OrderFlow.ask_comment) ∧
    (∀ (fid : String) (fs : Option Nat) (fn cap : Option String) (o : Order),
       5 * 1024 * 1024 < fs.getD 0 →
       (ask_comment_document fid fs fn cap o).1 = o ∧
       (ask_comment_document fid fs fn cap o).2.1 = OrderFlow.ask_comment) ∧
    (∀ (fid : String) (fs : Option Nat) (fn cap : Option String) (o : Order),
       ¬ 5 * 1024 * 1024 < fs.getD 0 →
       15 * 1024 * 1024 < o.comment.total_size + fs.getD 0 →
       (ask_comment_document fid fs fn cap o).1 = o ∧
       (ask_comment_document fid fs fn cap o).2.1 = OrderFlow.ask_comment) ∧
    (∀ (fid : String) (fs : Option Nat) (cap : Option String) (o : Order),
       sum_sizes o.comment = o.comment.total_size →
       sum_sizes (ask_comment_photo fid fs cap o).1.comment =
         (ask_comment_photo fid fs cap o).1.comment.total_size) ∧
    (∀ (fid : String) (fs : Option Nat) (fn cap : Option String) (o : Order),
       sum_sizes o.comment = o.comment.total_size →
       sum_sizes (ask_comment_document fid fs fn cap o).1.comment =
         (ask_comment_document fid fs fn cap o).1.comment.total_size) ∧
    (∀ (evs : List CEvent) (tg : String),
       sum_sizes (run_comment_events evs (build_empty_order tg)).comment =
         (run_comment_events evs (build_empty_order tg)).comment.total_size) := by
  refine ⟨?_, ?_, ?_, ?_, photo_step_inv, doc_step_inv, ?_⟩
  · intro fid fs cap o h
    constructor <;> simp [ask_comment_photo, h]
  · intro fid fs cap o h1 h2
    constructor <;> simp [ask_comment_photo, h1, h2]
  · intro fid fs fn cap o h
    constructor <;> simp [ask_comment_document, h]
  · intro fid fs fn cap o h1 h2
    constructor <;> simp [ask_comment_document, h1, h2]
  · intro evs tg
    exact run_events_inv evs (build_empty_order tg) rfl

/-- C8 witness: a 6 MB photo is rejected at a fresh order, leaving it
unchanged and the state at the comment step. -/
theorem c8_attachment_accounting_witness :
    (ask_comment_photo "f1" fs_big none o_c8).1 = o_c8 ∧
    (ask_comment_photo "f1" fs_big none o_c8).2.1 = OrderFlow.ask_comment :=
  c8_attachment_accounting.1 "f1" fs_big none o_c8 (by decide)

/-- C9: Back never modifies the order document: every section of the order is
identical before and after, while the re-rendered view uses exactly the
popped descriptor's prompt and base keyboard (plus the navigation row), the
re-recorded current step carries exactly the popped descriptor's data, and
the history shrinks by the popped entry. -/
theorem c9_back_frame (s : Session) (d : StepDesc)
    (h : s.history.getLast? = some d) :
    (nav_back s).order = s.order ∧
    (nav_back s).order.client = s.order.client ∧
    (nav_back s).order.freski = s.order.freski ∧
    (nav_back s).order.designer_wallpapers = s.order.designer_wallpapers ∧
    (nav_back s).order.background_wallpapers = s.order.background_wallpapers ∧
    (nav_back s).order.paintings = s.order.paintings ∧
    (nav_back s).order.delivery = s.order.delivery ∧
    (nav_back s).order.comment = s.order.comment ∧
    (nav_back s).lastView =
      some (step_view s.order d.prompt d.reply_markup d.include_nav true) ∧
    (nav_back s).currentStep =
      some { state_name := d.state_name, prompt := d.prompt,
             reply_markup := d.reply_markup, include_nav := d.include_nav,
             order_snapshot := s.order } ∧
    (nav_back s).history = s.history.dropLast := by
  unfold nav_back
  rw [h]
  simp [render_step, step_view]

/-- C9 witness: Back at the concrete session `s_w5` pops the catalog step and
leaves the order untouched. -/
theorem c9_back_frame_witness :
    (nav_back s_w5).order = s_w5.order ∧
    (nav_back s_w5).lastView =
      some (step_view s_w5.order d_w9.prompt d_w9.reply_markup d_w9.include_nav true) ∧
    (nav_back s_w5).history = s_w5.history.dropLast :=
  ⟨(c9_back_frame s_w5 d_w9 (by decide)).1,
   (c9_back_frame s_w5 d_w9 (by decide)).2.2.2.2.2.2.2.2.1,
   (c9_back_frame s_w5 d_w9 (by decide)).2.2.2.2.2.2.2.2.2.2⟩

/-- C10: delivery goes out only by e-mail.  For every target manager without
an e-mail address — also in regions where other managers do have one — the
per-recipient "нет email" error entry is recorded (first conjunct), and no
delivery is attempted to that contact: the attempted addresses are exactly
those of the e-mail-bearing managers (second conjunct).  Finalization always
completes with the customer reply (third conjunct), and when every target
manager lacks an e-mail there are zero attempts and zero successful sends
(fourth conjunct). -/
theorem c10_email_only (mm : List (String × List ManagerInfo))
    (send : String → Option String) (o : Order) :
    (∀ m ∈ target_managers mm o, truthy m.email = false →
       (py_or_s m.name "Без имени" ++ ": нет email") ∈
         (finalize_order mm send o).manager_errors) ∧
    email_addrs (finalize_order mm send o).effects =
      (target_managers mm o).filterMap
        (fun m => if truthy m.email then some (m.email.getD "") else none) ∧
    (finalize_order mm send o).effects.getLast? =
      some (SendEffect.customerReply (customer_message o)) ∧
    ((∀ m ∈ target_managers mm o, truthy m.email = false) →
       (finalize_order mm send o).successful_sends = 0 ∧
       email_addrs (finalize_order mm send o).effects = [] ∧
       (finalize_order mm send o).manager_errors =
         (target_managers mm o).map
           (fun m => py_or_s m.name "Без имени" ++ ": нет email") ∧
       (finalize_order mm send o).effects =
         [SendEffect.customerReply (customer_message o)]) := by
  refine ⟨?_, ?_, by simp [finalize_order], ?_⟩
  · intro m hm hfalse
    have herr := send_to_managers_errors send (format_summary o) (target_managers mm o)
    show _ ∈ (send_to_managers send (format_summary o) (target_managers mm o)).2.1
    rw [herr]
    exact List.mem_filterMap.mpr ⟨m, hm, by simp [hfalse]⟩
  · show email_addrs ((send_to_managers send (format_summary o) (target_managers mm o)).1
        ++ [SendEffect.customerReply (customer_message o)]) = _
    rw [email_addrs_append, email_addrs_filterMap]
    simp [email_addrs]
  · intro hall
    have heff :=
      send_to_managers_no_email send (format_summary o) (target_managers mm o) hall
    refine ⟨?_, ?_, ?_, ?_⟩ <;> simp [finalize_order, heff, email_addrs]

/-- C10 witness: in the mixed region `mm_c10b` the chat-id-only manager gets
the "нет email" entry while only the e-mail manager is attempted; in the
all-chat-id region `mm_c10` finalization completes with zero sends. -/
theorem c10_email_only_witness :
    (py_or_s (some "Иван") "Без имени" ++ ": нет email") ∈
      (finalize_order mm_c10b send_none o_c10b).manager_errors ∧
    email_addrs (finalize_order mm_c10b send_none o_c10b).effects =
      (target_managers mm_c10b o_c10b).filterMap
        (fun m => if truthy m.email then some (m.email.getD "") else none) ∧
    (finalize_order mm_c10 send_none o_c10).successful_sends = 0 ∧
    (finalize_order mm_c10 send_none o_c10).effects =
      [SendEffect.customerReply (customer_message o_c10)] :=
  ⟨(c10_email_only mm_c10b send_none o_c10b).1
      { name := some "Иван", email := none, chat_id := some 10 } (by decide) rfl,
   (c10_email_only mm_c10b send_none o_c10b).2.1,
   ((c10_email_only mm_c10 send_none o_c10).2.2.2 (by decide)).1,
   ((c10_email_only mm_c10 send_none o_c10).2.2.2 (by decide)).2.2.2⟩

end Bot
